import Mathlib

/-!
Shallow embedding of the sparkpilots appearance subsystem and tRPC server
helpers, together with theorems checking the specification's claims.

Sources embedded:
- `src/main/shared/appearance.ts` (ThemeSourceSchema, AppearanceSnapshotSchema)
- the appearance IPC module (`getSnapshot`, `broadcastAppearanceUpdate`,
  `setupAppearanceIpc`)
- `src/renderer/src/components/window/window-chrome.tsx` (the onChanged effect)
- `src/main/trpc/server.ts` (normalizeEndpointPath)
- the hello-trpc router's `letters` procedure
-/

/-- The `ThemeSource` union from `src/main/shared/appearance.ts`:
`z.union([z.literal('system'), z.literal('light'), z.literal('dark')])`. -/
inductive ThemeSource where
  | system
  | light
  | dark
deriving DecidableEq, Repr

/-- A JSON-like value crossing the process boundary.  `undefined` stands for the
JavaScript `undefined` produced by reading an absent object property. -/
inductive JValue where
  | null
  | undefined
  | bool (b : Bool)
  | str (s : String)
  | obj (fields : List (String × JValue))
deriving Repr

/-- Property lookup on a JSON object: first binding wins, absent keys give
`undefined` (JavaScript member access semantics on plain objects). -/
def jget (v : JValue) (k : String) : JValue :=
  match v with
  | .obj fields => (List.lookup k fields).getD .undefined
  | _ => .undefined

/-- `ThemeSourceSchema.parse` from `src/main/shared/appearance.ts`: a union of
the three string literals accepts exactly those three strings. -/
def parseThemeSource (v : JValue) : Option ThemeSource :=
  match v with
  | .str s =>
      if s = "system" then some .system
      else if s = "light" then some .light
      else if s = "dark" then some .dark
      else none
  | _ => none

/-- `z.boolean()` accepts exactly the booleans. -/
def parseBoolean (v : JValue) : Option Bool :=
  match v with
  | .bool b => some b
  | _ => none

/-- The `AppearanceSnapshot` value object from `src/main/shared/appearance.ts`:
`{ themeSource: ThemeSourceSchema, shouldUseDarkColors: z.boolean() }`. -/
structure AppearanceSnapshot where
  themeSource : ThemeSource
  shouldUseDarkColors : Bool
deriving DecidableEq, Repr

/-- `AppearanceSnapshotSchema.parse`: a `z.object` accepts a JSON object whose
`themeSource` member parses as a `ThemeSource` and whose
`shouldUseDarkColors` member is a boolean (extra members are stripped, a
missing member is `undefined` and fails its field schema). -/
def parseAppearanceSnapshot (v : JValue) : Option AppearanceSnapshot :=
  match v with
  | .obj _ =>
      (parseThemeSource (jget v "themeSource")).bind fun ts =>
        (parseBoolean (jget v "shouldUseDarkColors")).map fun b => ⟨ts, b⟩
  | _ => none

/-- State of Electron's `nativeTheme` module (external collaborator, spec §4.3
"OS Theme Observer").  `themeSource` is the writable `nativeTheme.themeSource`
property; it is carried as an `Option` because `getSnapshot` guards its read
with `?? 'system'`.  `osDark` is the raw OS light/dark signal. -/
structure NativeThemeState where
  themeSource : Option ThemeSource
  osDark : Bool
deriving DecidableEq, Repr

/-- `nativeTheme.shouldUseDarkColors`, per the OS Theme Observer contract
(spec §4.3): forced dark/light when the theme source is `dark`/`light`,
otherwise the live OS signal. -/
def NativeThemeState.shouldUseDarkColors (nt : NativeThemeState) : Bool :=
  match nt.themeSource.getD .system with
  | .dark => true
  | .light => false
  | .system => nt.osDark

/-- `getSnapshot` from the appearance IPC module:
`{ themeSource: nativeTheme.themeSource ?? 'system',
   shouldUseDarkColors: nativeTheme.shouldUseDarkColors }`. -/
def getSnapshot (nt : NativeThemeState) : AppearanceSnapshot :=
  { themeSource := nt.themeSource.getD .system
    shouldUseDarkColors := nt.shouldUseDarkColors }

/-- One entry of `webContents.getAllWebContents()`: a window handle with an
identifier and a liveness flag; `send` on a torn-down handle throws. -/
structure WebContents where
  id : Nat
  alive : Bool
deriving DecidableEq, Repr

/-- `contents.send('appearance:updated', snapshot)`: delivery succeeds exactly
when the handle is still alive; otherwise it throws (modelled as `none`). -/
def WebContents.sendSnapshot (w : WebContents) (s : AppearanceSnapshot) :
    Option AppearanceSnapshot :=
  if w.alive then some s else none

/-- `broadcastAppearanceUpdate` from the appearance IPC module: compute the
snapshot once, then loop over all web contents attempting delivery, with a
`try \x7b contents.send(...) \x7d catch \x7b\x7d` that discards a per-recipient
failure and continues.  The result lists the deliveries that succeeded, as
(recipient id, payload) pairs, in iteration order. -/
def broadcastAppearanceUpdate (nt : NativeThemeState) (ws : List WebContents) :
    List (Nat × AppearanceSnapshot) :=
  let snapshot := getSnapshot nt
  ws.filterMap fun w => (w.sendSnapshot snapshot).map fun s => (w.id, s)

/-- Main-process appearance state: the `nativeTheme` module plus the persisted
`Preferences` row (`themeSource` column, default `'system'`, from the SQL
migration). -/
structure MainState where
  native : NativeThemeState
  store : ThemeSource
deriving DecidableEq, Repr

/-- `setupAppearanceIpc` from the appearance IPC module: its only state change
is `nativeTheme.themeSource = 'system'` (inside `try ... catch`); it then
registers the `'appearance:get'` handler and the `nativeTheme` `'updated'`
listener.  It never reads the Preference Store. -/
def setupAppearanceIpc (st : MainState) : MainState :=
  { st with native := { st.native with themeSource := some .system } }

/-- The `'appearance:get'` IPC handler registered by `setupAppearanceIpc`:
`() => getSnapshot()` — returns the snapshot and leaves the state as is. -/
def handleAppearanceGet (st : MainState) : AppearanceSnapshot × MainState :=
  (getSnapshot st.native, st)

/-- Environment event: the OS reports a new effective light/dark signal
(after which Electron fires the `nativeTheme` `'updated'` notification). -/
def osSignalFlip (st : MainState) (b : Bool) : MainState :=
  { st with native := { st.native with osDark := b } }

/-- The `nativeTheme` `'updated'` listener registered by `setupAppearanceIpc`:
`() => \x7b broadcastAppearanceUpdate() \x7d` — it broadcasts the recomputed
snapshot and performs no state mutation (in particular no store write). -/
def onNativeThemeUpdated (st : MainState) (ws : List WebContents) :
    MainState × List (Nat × AppearanceSnapshot) :=
  (st, broadcastAppearanceUpdate st.native ws)

/-- Errors of the appearance transport contract (spec §7). -/
inductive AppearanceError where
  | invalidArgument
  | persistenceFailed
deriving DecidableEq, Repr

/-- Modelled from the spec: the appearance router's `setThemeSource` mutation
(`src/main/trpc/routers/appearance/index.ts`, absent from the sources — only
its caller `onChangeThemeSource` in `window-chrome.tsx`, the shared
`ThemeSourceSchema`, and the repository's appearance document declare it).
Per spec §4.1/§6: validate the input against the enumerated set using the
shared schema and reject anything else with `InvalidArgument` before any side
effect; on success persist to the Preference Store, apply to the OS Theme
Observer, recompute the snapshot and broadcast it to all windows.  The result
is (returned value or error, post state, successful deliveries). -/
def setThemeSource (input : JValue) (st : MainState) (ws : List WebContents) :
    Except AppearanceError AppearanceSnapshot × MainState ×
      List (Nat × AppearanceSnapshot) :=
  match parseThemeSource input with
  | none => (.error .invalidArgument, st, [])
  | some ts =>
      let st' : MainState :=
        { native := { themeSource := some ts, osDark := st.native.osDark }
          store := ts }
      (.ok (getSnapshot st'.native), st', broadcastAppearanceUpdate st'.native ws)

/-- JavaScript truthiness of a JSON-like value (used by the renderer's
ternary `snap.isDarkMode ? 'dark' : 'light'`). -/
def JValue.truthy (v : JValue) : Bool :=
  match v with
  | .null => false
  | .undefined => false
  | .bool b => b
  | .str s => s ≠ ""
  | .obj _ => true

/-- Per-window renderer theme state touched by the `onChanged` effect in
`window-chrome.tsx`: the React `themeSource` state (which stores the raw,
merely type-cast field of the payload), the presence of the `dark` class on
the document element, and its `color-scheme` style. -/
structure RendererState where
  themeSource : JValue
  docDark : Bool
  colorScheme : String
deriving Repr

/-- The `onChanged` callback body from `window-chrome.tsx` (lines 34–40),
applied to a delivered payload `snap`:
`setThemeSource(snap.themeSource as ThemeSource)` stores the raw field;
`classList.toggle('dark', snap.isDarkMode)` sets the class from the field
when it is present (a plain flip when the field is `undefined`, per
DOMTokenList semantics); the ternary sets `color-scheme` from the field's
truthiness.  No schema validation occurs; the `try ... catch` only absorbs
DOM exceptions. -/
def applyOnChanged (st : RendererState) (snap : JValue) : RendererState :=
  { themeSource := jget snap "themeSource"
    docDark :=
      match jget snap "isDarkMode" with
      | .undefined => !st.docDark
      | v => v.truthy
    colorScheme := if (jget snap "isDarkMode").truthy then "dark" else "light" }

/-- `normalizeEndpointPath` from `src/main/trpc/server.ts` (lines 75–79),
with the JavaScript string modelled as its list of UTF-16 code units:
`pathname.startsWith('/')` is a head check, `pathname.endsWith('/')` a last
check, `pathname.length > 1` a length check, and `pathname.slice(0, -1)`
drops the last unit.  The function prepends a slash when missing, otherwise
strips one trailing slash from a path longer than one character. -/
def normalizeEndpointPath (pathname : List Char) : List Char :=
  if ¬ pathname.head? = some '/' then '/' :: pathname
  else if pathname.length > 1 ∧ pathname.getLast? = some '/' then
    pathname.dropLast
  else pathname

/-- The `letters` query of the hello-trpc router, over UTF-16 code units:
`startChar = (input?.cursor ?? 'A').charCodeAt(0)` (`'A'` is 65),
`items = Array.from(\x7blength: pageSize\x7d).map((_, i) =>
String.fromCharCode(startChar + i)).filter((c) => c <= 'Z')` (`'Z'` is 90,
and `<=` on one-character strings compares code units), and
`nextCursor = last && last < 'Z' ? String.fromCharCode(last.charCodeAt(0) + 1)
: null`.  Zod validates `cursor` as a length-1 string and `pageSize` as an
integer in 1..5 defaulting to 3. -/
def lettersQuery (cursor : Option Nat) (pageSize : Nat) : List Nat × Option Nat :=
  let startChar := cursor.getD 65
  let items := ((List.range pageSize).map fun i => startChar + i).filter
    fun c => c ≤ 90
  match items.getLast? with
  | some last => (items, if last < 90 then some (last + 1) else none)
  | none => (items, none)

/-- The page the claim describes for `letters`: the consecutive run of
code points starting at the cursor, truncated at `'Z'` (90), and a next
cursor exactly when the last item is strictly below `'Z'`. -/
def lettersClaimedPage (c p : Nat) : List Nat × Option Nat :=
  let len := min p (91 - c)
  ((List.range len).map fun i => c + i,
    if c + len ≤ 90 then some (c + len) else none)

/-- Wire-shape acceptance as the source schema defines it: a JSON object
whose `themeSource` member is one of the three enumerated strings and whose
`shouldUseDarkColors` member is a boolean. -/
def wireAccepts (v : JValue) : Bool :=
  match v with
  | .obj _ =>
      (match jget v "themeSource" with
       | .str s => s = "system" ∨ s = "light" ∨ s = "dark"
       | _ => false)
      &&
      (match jget v "shouldUseDarkColors" with
       | .bool _ => true
       | _ => false)
  | _ => false

/-- Wire-shape acceptance as the claim words it: a JSON object whose
`themeSource` member is one of the three enumerated strings and whose
effective-dark-mode member, named `isDarkMode`, is a boolean. -/
def claimWireAccepts (v : JValue) : Bool :=
  match v with
  | .obj _ =>
      (match jget v "themeSource" with
       | .str s => s = "system" ∨ s = "light" ∨ s = "dark"
       | _ => false)
      &&
      (match jget v "isDarkMode" with
       | .bool _ => true
       | _ => false)
  | _ => false

/-- Helper: an alive recipient always receives the broadcast payload,
whatever happens to the other recipients. -/
theorem mem_broadcastAppearanceUpdate_of_alive (nt : NativeThemeState)
    (ws : List WebContents) (w : WebContents) (hmem : w ∈ ws)
    (halive : w.alive = true) :
    (w.id, getSnapshot nt) ∈ broadcastAppearanceUpdate nt ws := by
  simp only [broadcastAppearanceUpdate, List.mem_filterMap]
  exact ⟨w, hmem, by simp [WebContents.sendSnapshot, halive]⟩

/-- Helper: every payload a broadcast delivers is the snapshot of the
broadcasting state. -/
theorem broadcastAppearanceUpdate_payload (nt : NativeThemeState)
    (ws : List WebContents) (d : Nat × AppearanceSnapshot)
    (hd : d ∈ broadcastAppearanceUpdate nt ws) : d.2 = getSnapshot nt := by
  simp only [broadcastAppearanceUpdate, List.mem_filterMap] at hd
  obtain ⟨w, -, hw⟩ := hd
  by_cases h : w.alive = true
  · simp [WebContents.sendSnapshot, h] at hw
    simp [← hw]
  · simp [WebContents.sendSnapshot, h] at hw

/-- C1: every snapshot produced by `getSnapshot` (and, by the second part,
every payload carried in a broadcast) has its effective dark-mode boolean
consistent with its theme source: when the source is not `system` the
boolean equals (source = dark); when it is `system` the boolean equals the
OS signal read at snapshot-construction time. -/
theorem getSnapshot_consistent_with_themeSource (nt : NativeThemeState) :
    (((getSnapshot nt).themeSource ≠ .system →
        (getSnapshot nt).shouldUseDarkColors =
          decide ((getSnapshot nt).themeSource = .dark))
      ∧ ((getSnapshot nt).themeSource = .system →
        (getSnapshot nt).shouldUseDarkColors = nt.osDark))
    ∧ ∀ ws d, d ∈ broadcastAppearanceUpdate nt ws → d.2 = getSnapshot nt := by
  refine ⟨⟨?_, ?_⟩, fun ws d hd => broadcastAppearanceUpdate_payload nt ws d hd⟩
  · obtain ⟨ts, os⟩ := nt
    cases ts with
    | none => simp [getSnapshot]
    | some t => cases t <;>
        simp [getSnapshot, NativeThemeState.shouldUseDarkColors]
  · obtain ⟨ts, os⟩ := nt
    cases ts with
    | none => simp [getSnapshot, NativeThemeState.shouldUseDarkColors]
    | some t => cases t <;>
        simp [getSnapshot, NativeThemeState.shouldUseDarkColors]

/-- Witness for C1 at a concrete state: with an explicit `light` source and a
dark OS signal, the snapshot's boolean is `decide (source = dark)` (false). -/
theorem getSnapshot_consistent_with_themeSource_witness :
    (getSnapshot ⟨some ThemeSource.light, true⟩).shouldUseDarkColors =
      decide ((getSnapshot ⟨some ThemeSource.light, true⟩).themeSource =
        ThemeSource.dark) :=
  (getSnapshot_consistent_with_themeSource ⟨some .light, true⟩).1.1 (by decide)

/-- C2: any input outside the enumerated set `system`/`light`/`dark` makes
`setThemeSource` fail with `InvalidArgument` before any side effect: the
state (Preference Store and OS Theme Observer) is returned unchanged and no
delivery happens. -/
theorem setThemeSource_rejects_invalid_without_side_effects (input : JValue)
    (st : MainState) (ws : List WebContents)
    (h1 : input ≠ .str "system") (h2 : input ≠ .str "light")
    (h3 : input ≠ .str "dark") :
    setThemeSource input st ws =
      (.error .invalidArgument, st, []) := by
  have hp : parseThemeSource input = none := by
    unfold parseThemeSource
    cases input with
    | str s =>
        have hs1 : s ≠ "system" := fun h => h1 (by rw [h])
        have hs2 : s ≠ "light" := fun h => h2 (by rw [h])
        have hs3 : s ≠ "dark" := fun h => h3 (by rw [h])
        simp [hs1, hs2, hs3]
    | null => rfl
    | undefined => rfl
    | bool b => rfl
    | obj fields => rfl
  simp [setThemeSource, hp]

/-- Witness for C2: the input `"blue"` is rejected with `InvalidArgument`,
the state is unchanged and nothing is delivered, even with a live window. -/
theorem setThemeSource_rejects_invalid_witness :
    setThemeSource (.str "blue") ⟨⟨some .system, false⟩, .system⟩ [⟨0, true⟩] =
      (.error .invalidArgument, ⟨⟨some .system, false⟩, .system⟩, []) :=
  setThemeSource_rejects_invalid_without_side_effects (.str "blue") _ _
    (by simp) (by simp) (by simp)

/-- C3: whatever the registered window handles and their liveness, a delivery
failure to one recipient is discarded without aborting the rest — every
recipient still alive receives the new snapshot. -/
theorem broadcast_partial_failure_isolated (nt : NativeThemeState)
    (ws : List WebContents) (w : WebContents) (hmem : w ∈ ws)
    (halive : w.alive = true) :
    (w.id, getSnapshot nt) ∈ broadcastAppearanceUpdate nt ws :=
  mem_broadcastAppearanceUpdate_of_alive nt ws w hmem halive

/-- Witness for C3: window 0 is torn down, window 1 still receives the
broadcast payload. -/
theorem broadcast_partial_failure_isolated_witness :
    (1, getSnapshot ⟨some ThemeSource.dark, false⟩) ∈
      broadcastAppearanceUpdate ⟨some ThemeSource.dark, false⟩
        [⟨0, false⟩, ⟨1, true⟩] :=
  broadcast_partial_failure_isolated ⟨some .dark, false⟩ [⟨0, false⟩, ⟨1, true⟩]
    ⟨1, true⟩ (by decide) (by decide)

/-- Counterexample for C4: `setThemeSource('dark')` does persist `dark` to the
Preference Store, yet after a process restart (fresh `nativeTheme` state with
the stored preference still in place) the appearance initialization
(`setupAppearanceIpc`) yields a snapshot whose theme source is `system`,
not `dark` — it never reads the store. -/
theorem initialize_restart_recovery_cex :
    (setThemeSource (.str "dark") ⟨⟨some .system, false⟩, .system⟩ []).2.1.store
        = .dark
    ∧ ¬ (getSnapshot (setupAppearanceIpc
          ⟨⟨some .system, false⟩, .dark⟩).native).themeSource = .dark := by
  decide

/-- C4 (amended): the appearance initialization present in the code never
reads the Preference Store; it unconditionally applies `system` to the OS
Theme Observer, so after a restart `getSnapshot().themeSource` is `system`
whatever preference is stored (the stored row itself is left untouched). -/
theorem setupAppearanceIpc_forces_system (st : MainState) :
    (getSnapshot (setupAppearanceIpc st).native).themeSource = .system
    ∧ (setupAppearanceIpc st).store = st.store := by
  simp [setupAppearanceIpc, getSnapshot]

/-- C5: while the theme source is `system` (and the stored preference is
`system`), an OS signal flip followed by the `nativeTheme` `'updated'`
listener leaves the whole main-process state — in particular the Preference
Store — unchanged, while the recomputed snapshot reflects the flipped
signal and is broadcast to every live window. -/
theorem os_update_broadcasts_without_persisting (st : MainState)
    (ws : List WebContents) (b : Bool)
    (hsys : st.native.themeSource = some .system)
    (hstore : st.store = .system) :
    (onNativeThemeUpdated (osSignalFlip st b) ws).1 = osSignalFlip st b
    ∧ (onNativeThemeUpdated (osSignalFlip st b) ws).1.store = .system
    ∧ (getSnapshot (onNativeThemeUpdated (osSignalFlip st b) ws).1.native
        ).shouldUseDarkColors = b
    ∧ ∀ w ∈ ws, w.alive = true →
        (w.id, getSnapshot (osSignalFlip st b).native) ∈
          (onNativeThemeUpdated (osSignalFlip st b) ws).2 := by
  refine ⟨rfl, by simp [onNativeThemeUpdated, osSignalFlip, hstore], ?_, ?_⟩
  · simp [onNativeThemeUpdated, osSignalFlip, getSnapshot,
      NativeThemeState.shouldUseDarkColors, hsys]
  · intro w hmem halive
    exact mem_broadcastAppearanceUpdate_of_alive _ ws w hmem halive

/-- Witness for C5 at a concrete state: the OS flips to dark while following
the system; the store still holds `system`, the snapshot turns dark, and the
live window receives it. -/
theorem os_update_broadcasts_without_persisting_witness :
    (onNativeThemeUpdated (osSignalFlip ⟨⟨some .system, false⟩, .system⟩ true)
        [⟨0, true⟩]).1 = osSignalFlip ⟨⟨some .system, false⟩, .system⟩ true
    ∧ (onNativeThemeUpdated (osSignalFlip ⟨⟨some .system, false⟩, .system⟩ true)
        [⟨0, true⟩]).1.store = .system
    ∧ (getSnapshot (onNativeThemeUpdated
        (osSignalFlip ⟨⟨some .system, false⟩, .system⟩ true)
        [⟨0, true⟩]).1.native).shouldUseDarkColors = true
    ∧ ∀ w ∈ [(⟨0, true⟩ : WebContents)], w.alive = true →
        (w.id, getSnapshot (osSignalFlip ⟨⟨some .system, false⟩, .system⟩
          true).native) ∈
          (onNativeThemeUpdated (osSignalFlip ⟨⟨some .system, false⟩, .system⟩
            true) [⟨0, true⟩]).2 :=
  os_update_broadcasts_without_persisting ⟨⟨some .system, false⟩, .system⟩
    [⟨0, true⟩] true rfl rfl

/-- C6: the `'appearance:get'` handler is a pure, total read: it returns the
snapshot combining the current theme source and the current OS signal,
leaves the whole state unchanged, and instead of failing on an absent
`nativeTheme.themeSource` it falls back to the default `system`. -/
theorem handleAppearanceGet_pure_read (st : MainState) :
    (handleAppearanceGet st).2 = st
    ∧ (handleAppearanceGet st).1.themeSource = st.native.themeSource.getD .system
    ∧ (st.native.themeSource = none →
        (handleAppearanceGet st).1.themeSource = .system)
    ∧ (st.native.themeSource.getD .system = .system →
        (handleAppearanceGet st).1.shouldUseDarkColors = st.native.osDark) := by
  refine ⟨rfl, rfl, fun h => ?_, fun h => ?_⟩
  · simp [handleAppearanceGet, getSnapshot, h]
  · simp [handleAppearanceGet, getSnapshot,
      NativeThemeState.shouldUseDarkColors, h]

/-- Witness for C6 at a concrete state whose `themeSource` read yields
nothing: the handler still answers, with the default `system` source. -/
theorem handleAppearanceGet_pure_read_witness :
    (handleAppearanceGet ⟨⟨none, true⟩, .light⟩).1.themeSource =
      ThemeSource.system :=
  (handleAppearanceGet_pure_read ⟨⟨none, true⟩, .light⟩).2.2.1 rfl

/-- Counterexample for C7: a payload whose `themeSource` is `"blue"` fails
schema validation, yet the renderer's `onChanged` effect applies it anyway —
the stored theme source becomes the raw `"blue"` value and the dark class is
set from the payload, so the previously applied state (`"system"`, light) is
not retained. -/
theorem onChanged_applies_invalid_payload_cex :
    parseAppearanceSnapshot
        (.obj [("themeSource", .str "blue"), ("isDarkMode", .bool true)]) = none
    ∧ (applyOnChanged ⟨.str "system", false, "light"⟩
        (.obj [("themeSource", .str "blue"), ("isDarkMode", .bool true)])
        ).themeSource = .str "blue"
    ∧ (applyOnChanged ⟨.str "system", false, "light"⟩
        (.obj [("themeSource", .str "blue"), ("isDarkMode", .bool true)])
        ).docDark = true := by
  refine ⟨by decide, ?_, by decide⟩
  simp [applyOnChanged, jget]

/-- C7 (amended): the renderer applies every delivered payload with no schema
validation: the stored theme source is unconditionally overwritten with the
payload's raw `themeSource` member, and the document's dark class is set from
the payload's `isDarkMode` member when present (and merely flipped when that
member is absent) — invalid payloads are not discarded and the previously
applied theme state is not retained. -/
theorem applyOnChanged_no_validation (st : RendererState) (snap : JValue) :
    (applyOnChanged st snap).themeSource = jget snap "themeSource"
    ∧ (jget snap "isDarkMode" ≠ .undefined →
        (applyOnChanged st snap).docDark = (jget snap "isDarkMode").truthy)
    ∧ (jget snap "isDarkMode" = .undefined →
        (applyOnChanged st snap).docDark = !st.docDark) := by
  refine ⟨rfl, fun h => ?_, fun h => ?_⟩
  · unfold applyOnChanged
    cases hv : jget snap "isDarkMode" <;> simp_all [JValue.truthy]
  · simp [applyOnChanged, h]

/-- Witness for C7's amended theorem: a malformed payload with a present
boolean `isDarkMode` member overwrites the stored theme source and sets the
dark class from that member. -/
theorem applyOnChanged_no_validation_witness :
    (applyOnChanged ⟨.str "system", false, "light"⟩
        (.obj [("themeSource", .bool false), ("isDarkMode", .bool true)])
        ).docDark =
      (jget (.obj [("themeSource", .bool false), ("isDarkMode", .bool true)])
        "isDarkMode").truthy :=
  (applyOnChanged_no_validation ⟨.str "system", false, "light"⟩
      (.obj [("themeSource", .bool false), ("isDarkMode", .bool true)])).2.1
    (fun h => JValue.noConfusion h)

/-- Counterexample for C8: the object whose members are a valid
`themeSource` and a boolean named `isDarkMode` — accepted under the claim's
wording of the wire shape — is rejected by the snapshot schema, because the
schema's effective-dark-mode field is named `shouldUseDarkColors`. -/
theorem wire_shape_field_name_cex :
    claimWireAccepts
        (.obj [("themeSource", .str "dark"), ("isDarkMode", .bool true)]) = true
    ∧ parseAppearanceSnapshot
        (.obj [("themeSource", .str "dark"), ("isDarkMode", .bool true)])
      = none := by
  decide

/-- C8 (amended): the snapshot schema used at the process boundary accepts
an object exactly when its `themeSource` member is one of the three
enumerated strings and its effective-dark-mode member, named
`shouldUseDarkColors` (not `isDarkMode`), is a boolean. -/
theorem parseAppearanceSnapshot_accepts_iff (v : JValue) :
    (parseAppearanceSnapshot v).isSome = wireAccepts v := by
  cases v with
  | null => rfl
  | undefined => rfl
  | bool b => rfl
  | str s => rfl
  | obj fields =>
      simp only [parseAppearanceSnapshot, wireAccepts]
      cases hts : jget (JValue.obj fields) "themeSource" <;>
        cases hb : jget (JValue.obj fields) "shouldUseDarkColors" <;>
          simp only [parseThemeSource, parseBoolean, Option.bind, Option.map] <;>
            first
              | rfl
              | (split_ifs <;> simp_all)

/-- C9 (divergence at the failing input `"trpc/"`): the function's own
documentation promises a result with no trailing slash, `'trpc/'` being
treated as `'/trpc'`, but the code only strips a trailing slash when the
input already starts with one.  On `"trpc/"` it returns `"/trpc/"`, which
ends in a slash while not being `"/"`, and a second application gives the
different result `"/trpc"` — so the function is neither trailing-slash-free
nor idempotent. -/
theorem normalizeEndpointPath_trailing_slash_bug :
    normalizeEndpointPath ['t', 'r', 'p', 'c', '/']
        = ['/', 't', 'r', 'p', 'c', '/']
    ∧ (['/', 't', 'r', 'p', 'c', '/'].getLast? = some '/'
        ∧ ['/', 't', 'r', 'p', 'c', '/'] ≠ ['/'])
    ∧ normalizeEndpointPath (normalizeEndpointPath ['t', 'r', 'p', 'c', '/'])
        ≠ normalizeEndpointPath ['t', 'r', 'p', 'c', '/'] := by
  decide

/-- C10: for a cursor in `'A'..'Z'` (codes 65..90) and a page size in 1..5,
the `letters` query returns exactly the consecutive code points starting at
the cursor truncated at `'Z'` — a non-empty page of at most `pageSize`
items, all at most `'Z'` — with `nextCursor` the point immediately after
the last item when that item is strictly below `'Z'` and null otherwise;
with no cursor the page starts at the default `'A'`. -/
theorem lettersQuery_bounded_correct (c p : Nat)
    (h1 : 65 ≤ c) (h2 : c ≤ 90) (h3 : 1 ≤ p) (h4 : p ≤ 5) :
    lettersQuery (some c) p = lettersClaimedPage c p
    ∧ (lettersQuery (some c) p).1.length ≤ p
    ∧ (∀ x ∈ (lettersQuery (some c) p).1, x ≤ 90)
    ∧ (lettersQuery (some c) p).1 ≠ []
    ∧ lettersQuery none p = lettersClaimedPage 65 p := by
  interval_cases c <;> interval_cases p <;> decide

/-- Witness for C10 at cursor `'X'` (88) and page size 5: the page is
truncated at `'Z'` and the next cursor is null. -/
theorem lettersQuery_bounded_correct_witness :
    lettersQuery (some 88) 5 = lettersClaimedPage 88 5
    ∧ (lettersQuery (some 88) 5).1.length ≤ 5
    ∧ (∀ x ∈ (lettersQuery (some 88) 5).1, x ≤ 90)
    ∧ (lettersQuery (some 88) 5).1 ≠ []
    ∧ lettersQuery none 5 = lettersClaimedPage 65 5 :=
  lettersQuery_bounded_correct 88 5 (by decide) (by decide) (by decide)
    (by decide)
